import Mathlib

/-!
Shallow embedding of the wangchupei/canvas backend.

The repository holds three iterations of one small FastAPI + sqlite3 service:

* `src/canvas-blog-backend.py` (the snapshot iteration) — tables `posts` and
  `snapshots`; handlers `get_posts`, `create_post`, `update_post`,
  `delete_post`, `save_snapshot`, `get_snapshots`.  Modelled here in
  namespace `Canvas.Main`.
* `src/AI_produced_code /V1/canvas-blog-backend.py` (the version-history
  iteration) — tables `posts` and `post_versions` (the latter declared with
  `FOREIGN KEY(post_id) REFERENCES posts(id) ON DELETE CASCADE`); handlers
  `get_posts`, `create_post`, `update_post`, `delete_post`.  Modelled in
  namespace `Canvas.V1`.
* `src/AI_produced_code/canvas-blog-backend.py` — a strict subset of V1
  (no `post_versions` table, no update/delete); it adds nothing the claims
  need and is not modelled separately.

Modelling conventions:

* SQLite tables are lists of row structures, in insertion order; the
  AUTOINCREMENT counters and the `CURRENT_TIMESTAMP` clock are explicit
  fields of the database state.
* Timestamps are `Nat` ticks; `datetime.now()` readings are passed in as a
  `now` argument, `CURRENT_TIMESTAMP` defaults read the `clock` field.
* Python floats are carried opaquely as `Int` values: no handler performs
  any arithmetic on them, they only pass through.
* JSON text produced by `json.dumps` and read back by `json.loads` is
  modelled by its parse tree `Jval`; `json.dumps` followed by `json.loads`
  is the identity on parse trees, so a stored TEXT column holding JSON is
  modelled as the `Jval` it parses to.
* Every handler is a pure function from the database state (plus request
  data) to the new database state and an HTTP-level result.
-/

namespace Canvas

/-- A JSON value, the parse tree that `json.dumps` writes and `json.loads`
reads back.  Used for the `dimensions` column and the snapshot payload. -/
inductive Jval where
  | jnull
  | jbool (b : Bool)
  | jnum (n : Int)
  | jstr (s : String)
  | jarr (elems : List Jval)
  | jobj (fields : List (String × Jval))

/-- The empty JSON object, the default for `dimensions`. -/
def dimEmpty : Jval := .jobj []

namespace Main

/-- One row of the `posts` table (init_db, lines 36-47 of the snapshot
iteration): id, user_id (DEFAULT guest), title, content, position_x,
position_y, dimensions (TEXT holding JSON, DEFAULT the empty object),
created_at (TIMESTAMP DEFAULT CURRENT_TIMESTAMP). -/
structure PostRow where
  id : Nat
  user_id : String
  title : String
  content : String
  position_x : Int
  position_y : Int
  dimensions : Jval
  created_at : Nat

/-- One row of the `snapshots` table (init_db, lines 48-55): id, version,
timestamp (DEFAULT CURRENT_TIMESTAMP), snapshot_data (TEXT holding JSON). -/
structure SnapRow where
  id : Nat
  version : Int
  timestamp : Nat
  snapshot_data : Jval

/-- The whole sqlite database of the snapshot iteration, plus the
AUTOINCREMENT counters of both tables and the CURRENT_TIMESTAMP clock. -/
structure DB where
  posts : List PostRow
  next_post_id : Nat
  snaps : List SnapRow
  next_snap_id : Nat
  clock : Nat

/-- The raw JSON body of a create/update request, before pydantic
validation: every field may be absent. -/
structure RawPostCreate where
  title : Option String
  content : Option String
  position_x : Option Int
  position_y : Option Int
  dimensions : Option Jval
  user_id : Option String
  created_at : Option Nat

/-- The validated `PostCreate` pydantic model (lines 61-71): `title : str`
and `content : str` required, `position_x`/`position_y` default 0,
`dimensions` defaults to the empty dict, `user_id` defaults to guest,
`created_at` optional and defaults to None. -/
structure PostCreate where
  title : String
  content : String
  position_x : Int
  position_y : Int
  dimensions : Jval
  user_id : String
  created_at : Option Nat

/-- Pydantic validation of `PostCreate`: a missing `title` or `content` is a
422 validation error raised before the handler body runs; any present
string, the empty string included, is accepted, and the remaining fields
take their declared defaults. -/
def validate (r : RawPostCreate) : Option PostCreate :=
  match r.title, r.content with
  | some t, some c =>
      some { title := t, content := c,
             position_x := r.position_x.getD 0,
             position_y := r.position_y.getD 0,
             dimensions := r.dimensions.getD dimEmpty,
             user_id := r.user_id.getD "guest",
             created_at := r.created_at }
  | _, _ => none

/-- The response body of the post handlers, validated against the `Post`
response model. -/
structure PostResponse where
  id : Nat
  user_id : String
  title : String
  content : String
  position_x : Int
  position_y : Int
  dimensions : Jval
  created_at : Nat

/-- The HTTP error outcomes a handler of this iteration can produce. -/
inductive HErr where
  | notFound
  | internalError

/-- `create_post` (lines 101-119): INSERT the six request-supplied columns
into `posts` (so `created_at` takes the DB-side CURRENT_TIMESTAMP default
and the id is the AUTOINCREMENT value), commit, and answer with the request
fields plus the new id and `datetime.now()` as `created_at` (the literal
`created_at` key written after `**post.dict()` wins). -/
def create_post (p : PostCreate) (now : Nat) (db : DB) : DB × PostResponse :=
  let row : PostRow :=
    { id := db.next_post_id, user_id := p.user_id, title := p.title,
      content := p.content, position_x := p.position_x,
      position_y := p.position_y, dimensions := p.dimensions,
      created_at := db.clock }
  ({ db with posts := db.posts ++ [row], next_post_id := db.next_post_id + 1 },
   { id := db.next_post_id, user_id := p.user_id, title := p.title,
     content := p.content, position_x := p.position_x,
     position_y := p.position_y, dimensions := p.dimensions,
     created_at := now })

/-- The SET clause of the UPDATE statement (lines 127-131): overwrites
title, content, position_x, position_y and dimensions; user_id and
created_at are not in the SET list. -/
def applyUpdate (p : PostCreate) (r : PostRow) : PostRow :=
  { r with title := p.title, content := p.content,
           position_x := p.position_x, position_y := p.position_y,
           dimensions := p.dimensions }

/-- `update_post` (lines 121-143): run the UPDATE, and if `c.rowcount` is 0
raise HTTPException 404 — but that raise sits inside the `try` block, so the
blanket `except Exception` clause catches it and re-raises HTTPException
500; the connection is closed without commit, leaving the state unchanged.
Otherwise commit and answer with the request fields plus the path id and
`datetime.now()` as `created_at`. -/
def update_post (id : Nat) (p : PostCreate) (now : Nat) (db : DB) :
    DB × Except HErr PostResponse :=
  if db.posts.countP (fun r => r.id == id) == 0 then
    (db, .error .internalError)
  else
    ({ db with posts := db.posts.map (fun r => if r.id == id then applyUpdate p r else r) },
     .ok { id := id, user_id := p.user_id, title := p.title,
           content := p.content, position_x := p.position_x,
           position_y := p.position_y, dimensions := p.dimensions,
           created_at := now })

/-- `delete_post` (lines 145-163): DELETE FROM posts WHERE id = ?; as in
`update_post`, the 404 raised for a zero rowcount is swallowed by the
`except Exception` clause and surfaces as a 500, with the state unchanged. -/
def delete_post (id : Nat) (db : DB) : DB × Except HErr String :=
  if db.posts.countP (fun r => r.id == id) == 0 then
    (db, .error .internalError)
  else
    ({ db with posts := db.posts.filter (fun r => r.id != id) },
     .ok "Post deleted successfully")

/-- A full Post representation as it appears in a snapshot request body
(`Snapshot.snapshot_data : List[Post]`), after pydantic parsing; the
creation timestamp is carried by its isoformat string, which determines the
datetime value exactly. -/
structure PostRepr where
  title : String
  content : String
  position_x : Int
  position_y : Int
  dimensions : Jval
  user_id : String
  created_at : String
  id : Int

/-- The serialization of one post inside `save_snapshot` (lines 173-176):
`{**post.dict(), "created_at": post.created_at.isoformat()}`, with the keys
in pydantic declaration order. -/
def encodePost (p : PostRepr) : Jval :=
  .jobj [("title", .jstr p.title), ("content", .jstr p.content),
         ("position_x", .jnum p.position_x), ("position_y", .jnum p.position_y),
         ("dimensions", p.dimensions), ("user_id", .jstr p.user_id),
         ("created_at", .jstr p.created_at), ("id", .jnum p.id)]

/-- `json.dumps` of the whole post list: a JSON array of the per-post
objects, in order. -/
def encodePosts (ps : List PostRepr) : Jval := .jarr (ps.map encodePost)

/-- Field-by-field reading of one serialized post, the comparison the spec
round-trip property asks for; inverse of `encodePost`. -/
def decodePost : Jval → Option PostRepr
  | .jobj [("title", .jstr t), ("content", .jstr c),
           ("position_x", .jnum px), ("position_y", .jnum py),
           ("dimensions", d), ("user_id", .jstr u),
           ("created_at", .jstr ca), ("id", .jnum i)] =>
      some { title := t, content := c, position_x := px, position_y := py,
             dimensions := d, user_id := u, created_at := ca, id := i }
  | _ => none

/-- Field-by-field reading of a serialized post list; inverse of
`encodePosts`. -/
def decodePosts : Jval → Option (List PostRepr)
  | .jarr xs => xs.mapM decodePost
  | _ => none

/-- `save_snapshot` (lines 165-192): serialize the posts of the request
body, INSERT one row with the caller-supplied version (so `timestamp` takes
the CURRENT_TIMESTAMP default and the id is the AUTOINCREMENT value),
commit, and answer with a confirmation message. -/
def save_snapshot (version : Int) (payload : List PostRepr) (db : DB) :
    DB × String :=
  let row : SnapRow :=
    { id := db.next_snap_id, version := version, timestamp := db.clock,
      snapshot_data := encodePosts payload }
  ({ db with snaps := db.snaps ++ [row], next_snap_id := db.next_snap_id + 1 },
   "Snapshot saved successfully")

/-- One element of the `get_snapshots` response: the row with its
`snapshot_data` TEXT passed through `json.loads`. -/
structure SnapOut where
  id : Nat
  version : Int
  timestamp : Nat
  snapshot_data : Jval

/-- The ORDER BY version DESC relation on snapshot rows. -/
def versionDesc (a b : SnapRow) : Prop := b.version ≤ a.version

instance : DecidableRel versionDesc :=
  fun a b => inferInstanceAs (Decidable (b.version ≤ a.version))

instance : IsTotal SnapRow versionDesc :=
  ⟨fun a b => le_total b.version a.version⟩

instance : IsTrans SnapRow versionDesc :=
  ⟨fun _ _ _ h1 h2 => le_trans h2 h1⟩

/-- The projection of one stored row to a response element. -/
def snapOut (r : SnapRow) : SnapOut :=
  { id := r.id, version := r.version, timestamp := r.timestamp,
    snapshot_data := r.snapshot_data }

/-- `get_snapshots` (lines 196-217): SELECT * FROM snapshots ORDER BY
version DESC, each row answered with its `snapshot_data` parsed back from
TEXT. -/
def get_snapshots (db : DB) : List SnapOut :=
  (List.insertionSort versionDesc db.snaps).map snapOut

end Main

namespace V1

/-- One row of the `posts` table of the V1 iteration (init_db, lines
36-47). -/
structure PostRow where
  id : Nat
  user_id : String
  title : String
  content : String
  position_x : Int
  position_y : Int
  dimensions : Jval
  created_at : Nat

/-- One row of the `post_versions` table (init_db, lines 48-59):
version_id, post_id (FOREIGN KEY to posts.id, declared ON DELETE CASCADE),
user_id, title, content, dimensions, created_at (the capture timestamp,
DEFAULT CURRENT_TIMESTAMP). -/
structure VersionRow where
  version_id : Nat
  post_id : Nat
  user_id : String
  title : String
  content : String
  dimensions : Jval
  created_at : Nat

/-- The whole sqlite database of the V1 iteration. -/
structure DB where
  posts : List PostRow
  next_post_id : Nat
  versions : List VersionRow
  next_version_id : Nat
  clock : Nat

/-- The validated V1 `PostCreate` model (lines 68-77); unlike the snapshot
iteration it has no `created_at` field. -/
structure PostCreate where
  title : String
  content : String
  position_x : Int
  position_y : Int
  dimensions : Jval
  user_id : String

/-- The response body of the V1 post handlers. -/
structure PostResponse where
  id : Nat
  user_id : String
  title : String
  content : String
  position_x : Int
  position_y : Int
  dimensions : Jval
  created_at : Nat

/-- The HTTP error outcomes of the V1 handlers; no try/except wraps them,
so a 404 surfaces as raised. -/
inductive HErr where
  | notFound

/-- The SET clause of the V1 UPDATE statement (lines 126-130): it
overwrites title, content, position_x and position_y only — dimensions,
user_id and created_at are not in the SET list. -/
def applyUpdate (p : PostCreate) (r : PostRow) : PostRow :=
  { r with title := p.title, content := p.content,
           position_x := p.position_x, position_y := p.position_y }

/-- V1 `update_post` (lines 121-138): run the UPDATE, answer 404 when
`c.rowcount` is 0, otherwise commit and answer with the request fields plus
the path id and `datetime.now()` as `created_at`.  The handler body
contains no INSERT: nothing is ever written to `post_versions`. -/
def update_post (id : Nat) (p : PostCreate) (now : Nat) (db : DB) :
    DB × Except HErr PostResponse :=
  if db.posts.countP (fun r => r.id == id) == 0 then
    (db, .error .notFound)
  else
    ({ db with posts := db.posts.map (fun r => if r.id == id then applyUpdate p r else r) },
     .ok { id := id, user_id := p.user_id, title := p.title,
           content := p.content, position_x := p.position_x,
           position_y := p.position_y, dimensions := p.dimensions,
           created_at := now })

/-- V1 `delete_post` (lines 142-155): DELETE FROM posts WHERE id = ?, 404
when `c.rowcount` is 0.  The connection never runs
`PRAGMA foreign_keys = ON`, and the sqlite3 module leaves foreign-key
enforcement off by default, so the ON DELETE CASCADE clause of
`post_versions` has no effect: the rows of `post_versions` are untouched. -/
def delete_post (id : Nat) (db : DB) : DB × Except HErr String :=
  if db.posts.countP (fun r => r.id == id) == 0 then
    (db, .error .notFound)
  else
    ({ db with posts := db.posts.filter (fun r => r.id != id) },
     .ok "Post deleted successfully")

/-- The capture-timestamp-descending relation on version rows. -/
def capturedDesc (a b : VersionRow) : Prop := b.created_at ≤ a.created_at

instance : DecidableRel capturedDesc :=
  fun a b => inferInstanceAs (Decidable (b.created_at ≤ a.created_at))

instance : IsTotal VersionRow capturedDesc :=
  ⟨fun a b => Nat.le_total b.created_at a.created_at⟩

instance : IsTrans VersionRow capturedDesc :=
  ⟨fun _ _ _ h1 h2 => Nat.le_trans h2 h1⟩

/-- Modelled from the spec: no `listVersions` endpoint exists in any file
under src — only the `post_versions` table is declared (V1 init_db, lines
48-59).  Spec 4.1: "returns all PostVersion rows for the given post,
ordered by capture timestamp descending.  Returns an empty sequence (not an
error) if the post has no history or does not exist." -/
def listVersions (post_id : Nat) (db : DB) : List VersionRow :=
  List.insertionSort capturedDesc (db.versions.filter (fun v => v.post_id == post_id))

end V1

end Canvas

/-! Concrete sample data used by the closed counterexamples and witnesses. -/

namespace Canvas.Main

/-- A stored post, as the concrete database rows below hold it. -/
def srcRow : PostRow :=
  { id := 1, user_id := "alice", title := "A", content := "x",
    position_x := 1, position_y := 2, dimensions := dimEmpty, created_at := 0 }

/-- A one-post database. -/
def baseDB : DB :=
  { posts := [srcRow], next_post_id := 2, snaps := [], next_snap_id := 1,
    clock := 3 }

/-- An update request body carrying new field values and the default guest
owner. -/
def reqB : PostCreate :=
  { title := "B", content := "y", position_x := 5, position_y := 6,
    dimensions := dimEmpty, user_id := "guest", created_at := none }

/-- The stored post after `reqB` is applied to `srcRow`. -/
def updatedRow : PostRow :=
  { id := 1, user_id := "alice", title := "B", content := "y",
    position_x := 5, position_y := 6, dimensions := dimEmpty, created_at := 0 }

/-- `baseDB` after the update of post 1 by `reqB`. -/
def updatedDB : DB :=
  { posts := [updatedRow], next_post_id := 2, snaps := [], next_snap_id := 1,
    clock := 3 }

/-- The response of that update, carrying the request owner and the
wall-clock reading 7. -/
def updRespB : PostResponse :=
  { id := 1, user_id := "guest", title := "B", content := "y",
    position_x := 5, position_y := 6, dimensions := dimEmpty, created_at := 7 }

/-- A database with no posts and no snapshots. -/
def emptyDB : DB :=
  { posts := [], next_post_id := 1, snaps := [], next_snap_id := 1, clock := 0 }

/-- A raw create request whose title is the empty string. -/
def rawEmptyTitle : RawPostCreate :=
  { title := some "", content := some "x", position_x := none,
    position_y := none, dimensions := none, user_id := none,
    created_at := none }

/-- The validated model `rawEmptyTitle` produces. -/
def pcEmptyTitle : PostCreate :=
  { title := "", content := "x", position_x := 0, position_y := 0,
    dimensions := dimEmpty, user_id := "guest", created_at := none }

/-- A raw create request with all text fields present. -/
def rawFull : RawPostCreate :=
  { title := some "T", content := some "c", position_x := some 1,
    position_y := some 2, dimensions := none, user_id := some "alice",
    created_at := none }

/-- The validated model `rawFull` produces. -/
def pcFull : PostCreate :=
  { title := "T", content := "c", position_x := 1, position_y := 2,
    dimensions := dimEmpty, user_id := "alice", created_at := none }

end Canvas.Main

namespace Canvas.V1

/-- A stored V1 post. -/
def v1post : PostRow :=
  { id := 1, user_id := "alice", title := "A", content := "x",
    position_x := 1, position_y := 2, dimensions := dimEmpty, created_at := 0 }

/-- A V1 database holding one post and no version rows. -/
def v1db : DB :=
  { posts := [v1post], next_post_id := 2, versions := [], next_version_id := 1,
    clock := 3 }

/-- A V1 update request body. -/
def v1req : PostCreate :=
  { title := "B", content := "y", position_x := 5, position_y := 6,
    dimensions := dimEmpty, user_id := "guest" }

/-- The stored post after `v1req` is applied to `v1post`. -/
def v1postUpd : PostRow :=
  { id := 1, user_id := "alice", title := "B", content := "y",
    position_x := 5, position_y := 6, dimensions := dimEmpty, created_at := 0 }

/-- `v1db` after the update of post 1 by `v1req`. -/
def v1dbAfter : DB :=
  { posts := [v1postUpd], next_post_id := 2, versions := [],
    next_version_id := 1, clock := 3 }

/-- The response of that update, with wall-clock reading 9. -/
def v1resp : PostResponse :=
  { id := 1, user_id := "guest", title := "B", content := "y",
    position_x := 5, position_y := 6, dimensions := dimEmpty, created_at := 9 }

/-- A post_versions row referencing post 1. -/
def verRow : VersionRow :=
  { version_id := 1, post_id := 1, user_id := "alice", title := "Old",
    content := "o", dimensions := dimEmpty, created_at := 2 }

/-- A V1 database holding post 1 and one version row for it. -/
def vdb2 : DB :=
  { posts := [v1post], next_post_id := 2, versions := [verRow],
    next_version_id := 2, clock := 5 }

/-- `vdb2` after post 1 is deleted: the version row is still there. -/
def vdb2After : DB :=
  { posts := [], next_post_id := 2, versions := [verRow],
    next_version_id := 2, clock := 5 }

end Canvas.V1

/-! Theorems. -/

open Canvas Canvas.Main

/-- C1 counterexample: updating the existing post 1 succeeds, yet the
post_versions table holds no row before the call and none after it — the
update inserted zero PostVersion records, not exactly one. -/
theorem c1_update_without_version_capture :
    V1.update_post 1 V1.v1req 9 V1.v1db = (V1.v1dbAfter, .ok V1.v1resp) ∧
    V1.v1db.versions = [] ∧ V1.v1dbAfter.versions = [] :=
  ⟨rfl, rfl, rfl⟩

/-- C1 (amended): an update call never inserts a PostVersion — the V1
handler body holds no INSERT into post_versions, so the table is unchanged
by every update call (and the snapshot iteration has no such table at
all). -/
theorem c1_update_leaves_versions_unchanged
    (id : Nat) (p : V1.PostCreate) (now : Nat) (db : V1.DB) :
    ((V1.update_post id p now db).1).versions = db.versions := by
  unfold V1.update_post
  split <;> rfl

/-- C2: the code contradicts the cascade the schema declares: deleting the
existing post 1 removes its posts row but leaves the post_versions row
whose post_id is 1 in place, because foreign-key enforcement is never
switched on in sqlite3. -/
theorem c2_delete_leaves_orphan_version :
    V1.delete_post 1 V1.vdb2 = (V1.vdb2After, .ok "Post deleted successfully") ∧
    V1.vdb2After.posts = [] ∧
    V1.vdb2After.versions = [V1.verRow] ∧
    V1.verRow.post_id = 1 :=
  ⟨rfl, rfl, rfl, rfl⟩

/-- Reading one serialized post back recovers every field. -/
theorem decodePost_encodePost (p : PostRepr) :
    decodePost (encodePost p) = some p := rfl

/-- Reading a serialized post list back recovers the list, order
included. -/
theorem decodePosts_encodePosts (ps : List PostRepr) :
    decodePosts (encodePosts ps) = some ps := by
  induction ps with
  | nil => rfl
  | cons p ps ih =>
      simp only [decodePosts, encodePosts, List.map_cons] at *
      rw [List.mapM_cons, decodePost_encodePost, ih]
      rfl

/-- C3: saving a snapshot with version v and payload ps and then listing
snapshots yields a stored snapshot, with that version and the fresh id,
whose payload read back field-by-field is exactly ps, order preserved. -/
theorem c3_snapshot_roundtrip (v : Int) (ps : List PostRepr) (db : DB) :
    ∃ s ∈ get_snapshots (save_snapshot v ps db).1,
      s.version = v ∧ s.id = db.next_snap_id ∧
      decodePosts s.snapshot_data = some ps := by
  have hrow : ({ id := db.next_snap_id, version := v, timestamp := db.clock,
                 snapshot_data := encodePosts ps } : SnapRow)
      ∈ ((save_snapshot v ps db).1).snaps := by
    simp [save_snapshot]
  have hmem := (List.perm_insertionSort versionDesc
    ((save_snapshot v ps db).1).snaps).mem_iff.mpr hrow
  exact ⟨snapOut _, List.mem_map_of_mem snapOut hmem, rfl, rfl,
    decodePosts_encodePosts ps⟩

/-- C5 counterexample: a create request whose title is the empty string
passes validation and is inserted into the posts table — it is not rejected
and storage is mutated. -/
theorem c5_empty_title_accepted :
    validate rawEmptyTitle = some pcEmptyTitle ∧
    (create_post pcEmptyTitle 5 emptyDB).1.posts =
      [{ id := 1, user_id := "guest", title := "", content := "x",
         position_x := 0, position_y := 0, dimensions := dimEmpty,
         created_at := 0 }] :=
  ⟨rfl, rfl⟩

/-- C5 (amended): a create call is rejected with a validation error, before
any storage mutation, exactly when the title or the content is missing;
whenever both are present — empty text included — exactly one new Post row
is inserted and the created record is returned. -/
theorem c5_create_validation (r : RawPostCreate) :
    (validate r = none ↔ (r.title = none ∨ r.content = none)) ∧
    ∀ p now db, validate r = some p →
      (create_post p now db).1.posts = db.posts ++
        [{ id := db.next_post_id, user_id := p.user_id, title := p.title,
           content := p.content, position_x := p.position_x,
           position_y := p.position_y, dimensions := p.dimensions,
           created_at := db.clock }] ∧
      (create_post p now db).2 =
        { id := db.next_post_id, user_id := p.user_id, title := p.title,
          content := p.content, position_x := p.position_x,
          position_y := p.position_y, dimensions := p.dimensions,
          created_at := now } := by
  constructor
  · cases ht : r.title <;> cases hc : r.content <;> simp [validate, ht, hc]
  · intro p now db _
    exact ⟨rfl, rfl⟩

/-- C5 witness: the amended theorem applied to the concrete request
`rawFull`, whose validation result is `pcFull`. -/
theorem c5_create_validation_witness :
    (validate rawFull = none ↔ (rawFull.title = none ∨ rawFull.content = none)) ∧
    ((create_post pcFull 5 emptyDB).1.posts = emptyDB.posts ++
        [{ id := emptyDB.next_post_id, user_id := pcFull.user_id,
           title := pcFull.title, content := pcFull.content,
           position_x := pcFull.position_x, position_y := pcFull.position_y,
           dimensions := pcFull.dimensions, created_at := emptyDB.clock }] ∧
      (create_post pcFull 5 emptyDB).2 =
        { id := emptyDB.next_post_id, user_id := pcFull.user_id,
          title := pcFull.title, content := pcFull.content,
          position_x := pcFull.position_x, position_y := pcFull.position_y,
          dimensions := pcFull.dimensions, created_at := 5 }) :=
  ⟨(c5_create_validation rawFull).1,
   (c5_create_validation rawFull).2 pcFull 5 emptyDB rfl⟩

/-- C10: a create call ignores any caller-supplied creation timestamp: the
outcome is identical for every value of the request created_at field, the
response reports the wall-clock reading of the call, and the inserted row
takes the storage-side clock and the fresh id. -/
theorem c10_create_ignores_request_created_at
    (p : PostCreate) (c : Option Nat) (now : Nat) (db : DB) :
    create_post { p with created_at := c } now db = create_post p now db ∧
    (create_post p now db).2.created_at = now ∧
    ∃ r, (create_post p now db).1.posts = db.posts ++ [r] ∧
      r.created_at = db.clock ∧ r.id = db.next_post_id :=
  ⟨rfl, rfl, ⟨_, rfl, rfl, rfl⟩⟩

/-- C4: a successful update overwrites only title, content, position and
dimensions of the rows matching the id, preserving the persisted created_at
and user_id of every row, leaves the snapshots table and the counters
untouched, and reports the wall-clock reading of the call as the response
created_at. -/
theorem c4_update_frame
    (id : Nat) (p : PostCreate) (now : Nat) (db db2 : DB) (resp : PostResponse)
    (h : update_post id p now db = (db2, .ok resp)) :
    List.Forall₂ (fun r r2 : PostRow =>
        r2.id = r.id ∧ r2.created_at = r.created_at ∧ r2.user_id = r.user_id ∧
        (r.id = id → r2.title = p.title ∧ r2.content = p.content ∧
          r2.position_x = p.position_x ∧ r2.position_y = p.position_y ∧
          r2.dimensions = p.dimensions) ∧
        (r.id ≠ id → r2 = r)) db.posts db2.posts ∧
    db2.snaps = db.snaps ∧ db2.next_post_id = db.next_post_id ∧
    db2.next_snap_id = db.next_snap_id ∧ db2.clock = db.clock ∧
    resp.created_at = now := by
  unfold update_post at h
  split at h
  · injection h with h1 h2
    injection h2
  · injection h with h1 h2
    injection h2 with h2
    subst h1; subst h2
    refine ⟨?_, rfl, rfl, rfl, rfl, rfl⟩
    rw [List.forall₂_map_right_iff, List.forall₂_same]
    intro r _
    by_cases hid : r.id = id
    · simp [hid, applyUpdate]
    · simp [hid]

/-- C4 witness: the frame theorem at the concrete update of post 1 in
`baseDB` by `reqB` at wall-clock 7. -/
theorem c4_update_frame_witness :
    List.Forall₂ (fun r r2 : PostRow =>
        r2.id = r.id ∧ r2.created_at = r.created_at ∧ r2.user_id = r.user_id ∧
        (r.id = 1 → r2.title = reqB.title ∧ r2.content = reqB.content ∧
          r2.position_x = reqB.position_x ∧ r2.position_y = reqB.position_y ∧
          r2.dimensions = reqB.dimensions) ∧
        (r.id ≠ 1 → r2 = r)) baseDB.posts updatedDB.posts ∧
    updatedDB.snaps = baseDB.snaps ∧
    updatedDB.next_post_id = baseDB.next_post_id ∧
    updatedDB.next_snap_id = baseDB.next_snap_id ∧
    updatedDB.clock = baseDB.clock ∧
    updRespB.created_at = 7 :=
  c4_update_frame 1 reqB 7 baseDB updatedDB updRespB rfl

/-- C7: an update or delete whose id matches no stored Post leaves the
database exactly unchanged; the surfaced status however is the blanket 500
internal error, not a 404 — the HTTPException(404) raised inside the try
block is caught by the except Exception clause and replaced. -/
theorem c7_missing_id_no_side_effects
    (id : Nat) (p : PostCreate) (now : Nat) (db : DB)
    (h : ∀ r ∈ db.posts, r.id ≠ id) :
    update_post id p now db = (db, .error .internalError) ∧
    delete_post id db = (db, .error .internalError) := by
  have hc : db.posts.countP (fun r => r.id == id) = 0 := by
    rw [List.countP_eq_zero]
    intro r hr
    simpa using h r hr
  exact ⟨by simp [update_post, hc], by simp [delete_post, hc]⟩

/-- C7 witness: the theorem at id 1 on the empty database. -/
theorem c7_missing_id_witness :
    update_post 1 reqB 7 emptyDB = (emptyDB, .error .internalError) ∧
    delete_post 1 emptyDB = (emptyDB, .error .internalError) :=
  c7_missing_id_no_side_effects 1 reqB 7 emptyDB
    (by intro r hr; simp [emptyDB] at hr)

/-- C9: the owner in a successful update response is taken from the request
body: the response user_id equals the request user_id, while every stored
row matching the id keeps its previous user_id — so when the request owner
differs from the persisted one, the response disagrees with the stored
state. -/
theorem c9_update_response_owner_from_request
    (id : Nat) (p : PostCreate) (now : Nat) (db db2 : DB) (resp : PostResponse)
    (h : update_post id p now db = (db2, .ok resp)) :
    resp.user_id = p.user_id ∧
    ∀ r ∈ db.posts, r.id = id → r.user_id ≠ p.user_id →
      ∃ r2 ∈ db2.posts, r2.id = id ∧ r2.user_id = r.user_id ∧
        r2.user_id ≠ resp.user_id := by
  unfold update_post at h
  split at h
  · injection h with h1 h2
    injection h2
  · injection h with h1 h2
    injection h2 with h2
    subst h1; subst h2
    refine ⟨rfl, ?_⟩
    intro r hr hid hne
    have hmem := List.mem_map_of_mem
      (fun r : PostRow => if r.id == id then applyUpdate p r else r) hr
    simp only [hid, beq_self_eq_true, if_true] at hmem
    exact ⟨applyUpdate p r, hmem, hid, rfl, hne⟩

/-- C9 witness: the theorem at the concrete update of post 1 (stored owner
alice) by the request `reqB` (owner guest). -/
theorem c9_update_response_owner_witness :
    updRespB.user_id = reqB.user_id ∧
    ∃ r2 ∈ updatedDB.posts, r2.id = 1 ∧ r2.user_id = srcRow.user_id ∧
      r2.user_id ≠ updRespB.user_id := by
  obtain ⟨h1, h2⟩ :=
    c9_update_response_owner_from_request 1 reqB 7 baseDB updatedDB updRespB rfl
  exact ⟨h1, h2 srcRow (by simp [baseDB]) rfl (by decide)⟩

/-- C6: listVersions returns exactly the post_versions rows of the given
post, ordered by capture timestamp descending, and returns the empty
sequence — not an error — when the post has no history or does not
exist. -/
theorem c6_listVersions_spec (pid : Nat) (db : V1.DB) :
    (∀ v, v ∈ V1.listVersions pid db ↔ (v ∈ db.versions ∧ v.post_id = pid)) ∧
    List.Sorted (fun a b : V1.VersionRow => b.created_at ≤ a.created_at)
      (V1.listVersions pid db) ∧
    ((∀ v ∈ db.versions, v.post_id ≠ pid) → V1.listVersions pid db = []) := by
  have hperm := List.perm_insertionSort V1.capturedDesc
    (db.versions.filter (fun v => v.post_id == pid))
  refine ⟨?_, ?_, ?_⟩
  · intro v
    unfold V1.listVersions
    rw [hperm.mem_iff, List.mem_filter]
    simp
  · exact List.sorted_insertionSort V1.capturedDesc _
  · intro hnone
    have hfil : db.versions.filter (fun v => v.post_id == pid) = [] := by
      rw [List.filter_eq_nil_iff]
      intro v hv
      simpa using hnone v hv
    unfold V1.listVersions
    rw [hfil]
    rfl

/-- C6 witness: the theorem at the concrete database `vdb2`: post 1 has the
one captured row, post 2 has none and gets the empty sequence. -/
theorem c6_listVersions_witness :
    (V1.verRow ∈ V1.listVersions 1 V1.vdb2 ↔
      (V1.verRow ∈ V1.vdb2.versions ∧ V1.verRow.post_id = 1)) ∧
    V1.listVersions 2 V1.vdb2 = [] :=
  ⟨(c6_listVersions_spec 1 V1.vdb2).1 V1.verRow,
   (c6_listVersions_spec 2 V1.vdb2).2.2 (by decide)⟩

/-- Listing snapshots always yields a sequence ordered by version number
descending. -/
theorem get_snapshots_sorted (db : DB) :
    List.Sorted (fun a b : SnapOut => b.version ≤ a.version)
      (get_snapshots db) := by
  have h := List.sorted_insertionSort versionDesc db.snaps
  unfold get_snapshots
  exact List.Pairwise.map snapOut (fun _ _ hab => hab) h

/-- Listing snapshots yields exactly the stored rows, each projected to its
response element. -/
theorem get_snapshots_mem (db : DB) (o : SnapOut) :
    o ∈ get_snapshots db ↔ ∃ r ∈ db.snaps, o = snapOut r := by
  unfold get_snapshots
  rw [List.mem_map]
  constructor
  · rintro ⟨r, hr, rfl⟩
    exact ⟨r, (List.perm_insertionSort versionDesc db.snaps).mem_iff.mp hr, rfl⟩
  · rintro ⟨r, hr, rfl⟩
    exact ⟨r, (List.perm_insertionSort versionDesc db.snaps).mem_iff.mpr hr, rfl⟩

/-- C8: two consecutive snapshot saves — duplicate version numbers included —
persist as two independent rows with distinct fresh ids, and the snapshot
list operation returns exactly the stored snapshots ordered by version
number descending. -/
theorem c8_snapshots_persist_independently
    (db : DB) (v1 v2 : Int) (ps1 ps2 : List PostRepr) :
    ((save_snapshot v2 ps2 (save_snapshot v1 ps1 db).1).1).snaps =
      db.snaps ++
        [{ id := db.next_snap_id, version := v1, timestamp := db.clock,
           snapshot_data := encodePosts ps1 },
         { id := db.next_snap_id + 1, version := v2, timestamp := db.clock,
           snapshot_data := encodePosts ps2 }] ∧
    List.Sorted (fun a b : SnapOut => b.version ≤ a.version)
      (get_snapshots (save_snapshot v2 ps2 (save_snapshot v1 ps1 db).1).1) ∧
    ∀ o, o ∈ get_snapshots (save_snapshot v2 ps2 (save_snapshot v1 ps1 db).1).1 ↔
      ∃ r ∈ ((save_snapshot v2 ps2 (save_snapshot v1 ps1 db).1).1).snaps,
        o = snapOut r := by
  refine ⟨?_, get_snapshots_sorted _, fun o => get_snapshots_mem _ o⟩
  simp [save_snapshot]
